import Mathlib

/-!
Verification development for the voice recorder application
(src/voiceRecorder.py).

The source program is a single-window recorder.  A toggle action starts
capture, the audio callback appends each incoming sample block to an
in-memory list, a one-second timer tracks elapsed time, and a stop action
stops the stream, concatenates the captured blocks, writes them to a
temporary WAV file and converts that file to MP3 with an external ffmpeg
process, removing the temporary file on every exit path.

The embedding models the mutable application state as an explicit record,
each handler as a pure state transformer, and the observable actions
(stream control, file system writes, process invocation, message boxes)
as an event trace.  The file system is modelled as the list of existing
paths, and the environment the program cannot control (the save dialog
answer, the WAV write outcome, the ffmpeg outcome) is an explicit
parameter of the handlers that consult it.
-/

namespace VoiceRecorder

/-- One audio block: the samples delivered by a single callback
invocation (the `indata` array, flattened). -/
abbrev SampleBlock := List Int

/-- Observable actions of the program, recorded as a trace in the order
the source performs them. -/
inductive Event where
  | logStatus (s : String)
  | appendBlock (b : SampleBlock)
  | timerStart
  | streamStart
  | streamStop
  | streamClose
  | timerStop
  | bufferRead (rec : List Int)
  | openDialog
  | writeWav (p : String)
  | runFfmpeg (cmd : List String)
  | removeFile (p : String)
  | msgWarn (s : String)
  | msgInfo (s : String)
  | msgCritical (s : String)
  | acceptClose
  deriving DecidableEq

/-- Status line shown when idle (set in initUI and restored by reset_ui). -/
def initStatus : String := "Press Record to start recording."

/-- The mutable state of VoiceRecorderApp: the recording flag, the list of
captured frames, the fixed audio format, the QTimer activity and elapsed
time, the stream handle, and the UI widget state touched by the code. -/
structure AppState where
  is_recording : Bool
  recorded_frames : List SampleBlock
  samplerate : Nat
  channels : Nat
  timerActive : Bool
  timerLabelVisible : Bool
  streamOpen : Bool
  time : Nat
  statusText : String
  recordEnabled : Bool
  stopEnabled : Bool
  deriving DecidableEq

/-- The state built by the constructor: not recording, empty frame list,
44100 Hz mono, timer allocated but not started. -/
def initState : AppState :=
  { is_recording := false
    recorded_frames := []
    samplerate := 44100
    channels := 1
    timerActive := false
    timerLabelVisible := false
    streamOpen := false
    time := 0
    statusText := initStatus
    recordEnabled := true
    stopEnabled := false }

/-- reset_ui (source lines 200 to 211): clears the recording flag, restores
the status text, hides the timer label and restores the buttons.  It does
not touch the timer, the elapsed time, the stream or the frame list. -/
def reset_ui (st : AppState) : AppState :=
  { st with is_recording := false
            statusText := initStatus
            timerLabelVisible := false
            recordEnabled := true
            stopEnabled := false }

/-- toggle_recording (source lines 95 to 126).  Returns immediately when
already recording.  Otherwise sets the flag, clears the frame list,
updates the UI, resets and starts the one-second timer, then tries to
open and start the input stream; `openOk` tells whether that try block
succeeds.  On failure it shows a critical message box and calls reset_ui. -/
def toggle_recording (st : AppState) (openOk : Bool) : AppState × List Event :=
  if st.is_recording then (st, [])
  else
    let st1 : AppState :=
      { st with is_recording := true
                recorded_frames := []
                statusText := "Recording..."
                recordEnabled := false
                stopEnabled := true
                time := 0
                timerLabelVisible := true
                timerActive := true }
    if openOk then
      ({ st1 with streamOpen := true }, [Event.timerStart, Event.streamStart])
    else
      (reset_ui st1,
       [Event.timerStart, Event.msgCritical "Could not start recording."])

/-- audio_callback (source lines 129 to 133): when the status is non-empty
it is printed to stderr; in every case a copy of the incoming block is
appended to recorded_frames.  Nothing else in the state changes. -/
def audio_callback (st : AppState) (indata : SampleBlock) (status : String) :
    AppState × List Event :=
  ({ st with recorded_frames := st.recorded_frames ++ [indata] },
   (if status = "" then [] else [Event.logStatus status])
     ++ [Event.appendBlock indata])

/-- update_timer (source lines 213 to 216): adds one second to the elapsed
time and refreshes the label. -/
def update_timer (st : AppState) : AppState :=
  { st with time := st.time + 1 }

/-- Deliver a list of callback invocations (block and status pairs) in
arrival order, starting from a given state. -/
def runCallbacks (st : AppState) (cs : List (SampleBlock × String)) : AppState :=
  cs.foldl (fun s c => (audio_callback s c.1 c.2).1) st

/-- The fixed intermediate file path used by save_file (source line 166). -/
def temp_wav_path : String := "temp_recording.wav"

/-- The concatenation np.concatenate(recorded_frames, axis=0) performed at
source line 157: the blocks joined in list order. -/
def concatenate (frames : List SampleBlock) : List Int := frames.flatten

/-- The check file_path.lower().endswith(".mp3") from source line 163,
taken over the character sequence of the path: the path is lower-cased
character by character and compared against the ".mp3" suffix. -/
def lowerEndsWithMp3 (p : String) : Bool :=
  List.isSuffixOf ".mp3".data (p.data.map Char.toLower)

/-- Destination path normalization (source lines 163 to 164): when the
lower-cased path does not end in ".mp3" the extension is appended. -/
def normalizeDest (p : String) : String :=
  if lowerEndsWithMp3 p then p else p ++ ".mp3"

/-- The argument vector built at source lines 172 to 181: input file,
overwrite flag, no-video flag, sample rate, channel count, bitrate 192k,
destination path. -/
def ffmpegCommand (samplerate channels : Nat) (dest : String) : List String :=
  ["ffmpeg", "-i", temp_wav_path, "-y", "-vn",
   "-ar", toString samplerate, "-ac", toString channels,
   "-b:a", "192k", dest]

/-- Outcome of the wav.write call: success, or an exception; on an
exception the file may or may not have been created before the failure. -/
inductive WavOutcome where
  | ok
  | ioError (tempCreated : Bool) (msg : String)
  deriving DecidableEq

/-- Outcome of subprocess.run on the ffmpeg command: success, the
executable missing (FileNotFoundError), or a non-zero exit
(CalledProcessError with captured stderr). -/
inductive FfmpegOutcome where
  | ok
  | missing
  | exitError (stderr : String)
  deriving DecidableEq

/-- The environment consulted by save_file: the dialog answer (empty means
cancelled) and the outcomes of the two fallible external steps. -/
structure SaveEnv where
  dialogPath : String
  wavWrite : WavOutcome
  ffmpeg : FfmpegOutcome
  deriving DecidableEq

/-- The user-visible outcome of the save step, one constructor per message
box branch of the source. -/
inductive SaveResult where
  | noAudioCaptured
  | success (path : String)
  | encoderNotFound
  | encoderExecutionFailed (stderr : String)
  | ioFailure (msg : String)
  deriving DecidableEq

/-- The file system: the list of paths that currently exist. -/
abbrev Fs := List String

/-- Creating or overwriting a file: the path exists afterwards and nothing
else changes. -/
def addFile (fs : Fs) (p : String) : Fs :=
  if p ∈ fs then fs else fs ++ [p]

/-- The finally block (source lines 195 to 198): when the temporary file
exists it is removed. -/
def removeTemp (fs : Fs) : Fs × List Event :=
  if temp_wav_path ∈ fs then
    (fs.filter (fun q => q ≠ temp_wav_path), [Event.removeFile temp_wav_path])
  else (fs, [])

def noAudioMsg : String := "No audio was recorded."
def unexpectedMsg : String := "An unexpected error occurred."
def ffmpegMissingMsg : String := "FFmpeg not found."
def convertFailedMsg : String := "Failed to convert the file using FFmpeg."
def savedMsg : String := "Recording saved successfully."

/-- The try/except/finally body of save_file (source lines 166 to 198),
entered with a non-empty normalized destination: write the temporary WAV
file, run ffmpeg, report the outcome, and always run the finally block
that removes the temporary file. -/
def encodeStep (st : AppState) (env : SaveEnv) (dest : String) (fs : Fs) :
    SaveResult × Fs × List Event :=
  match env.wavWrite with
  | .ioError created msg =>
      let fs1 := if created then addFile fs temp_wav_path else fs
      (.ioFailure msg, (removeTemp fs1).1,
       [Event.writeWav temp_wav_path, Event.msgCritical unexpectedMsg]
         ++ (removeTemp fs1).2)
  | .ok =>
      let fs1 := addFile fs temp_wav_path
      match env.ffmpeg with
      | .missing =>
          (.encoderNotFound, (removeTemp fs1).1,
           [Event.writeWav temp_wav_path, Event.msgCritical ffmpegMissingMsg]
             ++ (removeTemp fs1).2)
      | .exitError err =>
          (.encoderExecutionFailed err, (removeTemp fs1).1,
           [Event.writeWav temp_wav_path,
            Event.runFfmpeg (ffmpegCommand st.samplerate st.channels dest),
            Event.msgCritical convertFailedMsg]
             ++ (removeTemp fs1).2)
      | .ok =>
          let fs2 := addFile fs1 dest
          (.success dest, (removeTemp fs2).1,
           [Event.writeWav temp_wav_path,
            Event.runFfmpeg (ffmpegCommand st.samplerate st.channels dest),
            Event.msgInfo savedMsg]
             ++ (removeTemp fs2).2)

/-- save_file (source lines 151 to 198).  An empty frame list is rejected
with a warning before anything else happens.  Otherwise the frames are
concatenated, the save dialog is shown, a cancelled dialog (empty path)
returns silently, and a chosen path is normalized and passed to the
encode step.  The result is none when no message box at all is shown. -/
def save_file (st : AppState) (env : SaveEnv) (fs : Fs) :
    Option SaveResult × Fs × List Event :=
  if st.recorded_frames = [] then
    (some .noAudioCaptured, fs, [Event.msgWarn noAudioMsg])
  else
    if env.dialogPath = "" then
      (none, fs,
       [Event.bufferRead (concatenate st.recorded_frames), Event.openDialog])
    else
      (some (encodeStep st env (normalizeDest env.dialogPath) fs).1,
       (encodeStep st env (normalizeDest env.dialogPath) fs).2.1,
       [Event.bufferRead (concatenate st.recorded_frames), Event.openDialog]
         ++ (encodeStep st env (normalizeDest env.dialogPath) fs).2.2)

/-- stop_recording (source lines 135 to 149): a no-op when not recording;
otherwise the stream is stopped and closed and the timer stopped, all
before save_file runs, and finally reset_ui restores the idle UI. -/
def stop_recording (st : AppState) (env : SaveEnv) (fs : Fs) :
    AppState × Option SaveResult × Fs × List Event :=
  if st.is_recording then
    let st1 : AppState := { st with streamOpen := false, timerActive := false }
    (reset_ui st1, (save_file st1 env fs).1, (save_file st1 env fs).2.1,
     [Event.streamStop, Event.streamClose, Event.timerStop]
       ++ (save_file st1 env fs).2.2)
  else (st, none, fs, [])

/-- closeEvent (source lines 218 to 223): when recording, the stream is
stopped and closed before the close event is accepted. -/
def closeEvent (st : AppState) : AppState × List Event :=
  if st.is_recording then
    ({ st with streamOpen := false },
     [Event.streamStop, Event.streamClose, Event.acceptClose])
  else (st, [Event.acceptClose])

/-- The state reached by pressing Record from the initial state when the
device opens successfully. -/
def recState : AppState := (toggle_recording initState true).1

/-- A representative environment for witnesses: path chosen, both external
steps succeed. -/
def env0 : SaveEnv := { dialogPath := "out", wavWrite := .ok, ffmpeg := .ok }

theorem audio_callback_state (st : AppState) (b : SampleBlock) (s : String) :
    (audio_callback st b s).1
      = { st with recorded_frames := st.recorded_frames ++ [b] } := rfl

theorem runCallbacks_cons (st : AppState) (c : SampleBlock × String)
    (cs : List (SampleBlock × String)) :
    runCallbacks st (c :: cs) = runCallbacks (audio_callback st c.1 c.2).1 cs := rfl

theorem runCallbacks_frames (cs : List (SampleBlock × String)) :
    ∀ st : AppState,
      (runCallbacks st cs).recorded_frames
        = st.recorded_frames ++ cs.map Prod.fst := by
  induction cs with
  | nil => intro st; simp [runCallbacks]
  | cons c cs ih =>
      intro st
      rw [runCallbacks_cons, ih, audio_callback_state]
      simp

theorem runCallbacks_is_recording (cs : List (SampleBlock × String)) :
    ∀ st : AppState, (runCallbacks st cs).is_recording = st.is_recording := by
  induction cs with
  | nil => intro st; rfl
  | cons c cs ih => intro st; rw [runCallbacks_cons, ih]; rfl

/-- C1: during one recording phase every block delivered to the audio
callback is appended in arrival order, so the frozen frame list equals
exactly the delivered blocks and the sample sequence read at stop time is
their ordered concatenation, with no block dropped, duplicated or
reordered. -/
theorem c1_no_block_dropped (st : AppState) (cs : List (SampleBlock × String))
    (env : SaveEnv) (fs : Fs)
    (hrec : st.is_recording = true) (hempty : st.recorded_frames = [])
    (hne : cs ≠ []) :
    (runCallbacks st cs).recorded_frames = cs.map Prod.fst ∧
    concatenate (runCallbacks st cs).recorded_frames
      = (cs.map Prod.fst).flatten ∧
    Event.bufferRead ((cs.map Prod.fst).flatten)
      ∈ (stop_recording (runCallbacks st cs) env fs).2.2.2 := by
  have hframes := runCallbacks_frames cs st
  rw [hempty] at hframes
  simp only [List.nil_append] at hframes
  have hrec2 : (runCallbacks st cs).is_recording = true := by
    rw [runCallbacks_is_recording, hrec]
  have hne2 : (runCallbacks st cs).recorded_frames ≠ [] := by
    rw [hframes]
    simpa using hne
  refine ⟨hframes, by rw [hframes]; rfl, ?_⟩
  by_cases hd : env.dialogPath = "" <;>
    simp [stop_recording, hrec2, save_file, hne2, hd, concatenate, hframes, hne]

theorem c1_no_block_dropped_witness :
    (runCallbacks recState [([1, 2], ""), ([3], "overflow")]).recorded_frames
      = [[1, 2], [3]] ∧
    concatenate
        (runCallbacks recState [([1, 2], ""), ([3], "overflow")]).recorded_frames
      = [1, 2, 3] ∧
    Event.bufferRead [1, 2, 3]
      ∈ (stop_recording (runCallbacks recState [([1, 2], ""), ([3], "overflow")])
          env0 []).2.2.2 :=
  c1_no_block_dropped recState [([1, 2], ""), ([3], "overflow")] env0 []
    (by decide) (by decide) (by decide)

/-- C2: with zero captured blocks the save step rejects the recording with
the no-audio warning before the dialog, the temporary write or the
encoder invocation, the file system is unchanged, and the trace records
no file write and no encoder run. -/
theorem c2_empty_rejected (st : AppState) (env : SaveEnv) (fs : Fs)
    (h : st.recorded_frames = []) :
    (save_file st env fs).1 = some SaveResult.noAudioCaptured ∧
    (save_file st env fs).2.1 = fs ∧
    (∀ c, Event.runFfmpeg c ∉ (save_file st env fs).2.2) ∧
    (∀ p, Event.writeWav p ∉ (save_file st env fs).2.2) := by
  simp [save_file, h]

theorem c2_empty_rejected_witness :
    (save_file initState env0 []).1 = some SaveResult.noAudioCaptured ∧
    (save_file initState env0 []).2.1 = [] ∧
    Event.runFfmpeg (ffmpegCommand 44100 1 "out")
      ∉ (save_file initState env0 []).2.2 ∧
    Event.writeWav temp_wav_path ∉ (save_file initState env0 []).2.2 :=
  ⟨(c2_empty_rejected initState env0 [] rfl).1,
   (c2_empty_rejected initState env0 [] rfl).2.1,
   (c2_empty_rejected initState env0 [] rfl).2.2.1 _,
   (c2_empty_rejected initState env0 [] rfl).2.2.2 _⟩

theorem toggle_noop (st : AppState) (ok : Bool) (h : st.is_recording = true) :
    toggle_recording st ok = (st, []) := by
  simp [toggle_recording, h]

/-- C8: pressing Record while already recording is a no-op, pressing Stop
while not recording is a no-op producing no result, and a second
immediate start request after a successful one is a no-op, so two start
requests create exactly one recording session. -/
theorem c8_start_stop_noop :
    (∀ (st : AppState) (ok : Bool), st.is_recording = true →
       toggle_recording st ok = (st, [])) ∧
    (∀ (st : AppState) (env : SaveEnv) (fs : Fs), st.is_recording = false →
       stop_recording st env fs = (st, none, fs, [])) ∧
    (∀ st : AppState, st.is_recording = false →
       toggle_recording (toggle_recording st true).1 true
         = ((toggle_recording st true).1, [])) := by
  refine ⟨fun st ok h => toggle_noop st ok h, ?_, ?_⟩
  · intro st env fs h
    simp [stop_recording, h]
  · intro st h
    exact toggle_noop _ _ (by simp [toggle_recording, h])

theorem c8_start_stop_noop_witness :
    toggle_recording recState true = (recState, []) ∧
    stop_recording initState env0 [] = (initState, none, [], []) ∧
    toggle_recording (toggle_recording initState true).1 true
      = ((toggle_recording initState true).1, []) :=
  ⟨c8_start_stop_noop.1 recState true (by decide),
   c8_start_stop_noop.2.1 initState env0 [] (by decide),
   c8_start_stop_noop.2.2 initState (by decide)⟩

/-- A state that has captured two blocks during a normal recording. -/
def capturedState : AppState := runCallbacks recState [([0, 1], ""), ([2], "")]

theorem temp_not_in_removeTemp (fs : Fs) :
    temp_wav_path ∉ (removeTemp fs).1 := by
  unfold removeTemp
  by_cases h : temp_wav_path ∈ fs <;> simp [h]

theorem temp_not_in_encodeStep (st : AppState) (env : SaveEnv) (dest : String)
    (fs : Fs) : temp_wav_path ∉ (encodeStep st env dest fs).2.1 := by
  obtain ⟨dp, wv, ff⟩ := env
  cases wv <;> cases ff <;>
    · simp only [encodeStep]
      exact temp_not_in_removeTemp _

/-- C3: whenever the save step ran the encode step (its result is neither
the empty-recording rejection nor the silent cancelled-dialog return, so
it is a success, encoder-missing, encoder-exit or I/O failure outcome),
the temporary WAV file does not exist in the resulting file system. -/
theorem c3_temp_removed (st : AppState) (env : SaveEnv) (fs : Fs)
    (h1 : (save_file st env fs).1 ≠ none)
    (h2 : (save_file st env fs).1 ≠ some SaveResult.noAudioCaptured) :
    temp_wav_path ∉ (save_file st env fs).2.1 := by
  by_cases hf : st.recorded_frames = []
  · simp [save_file, hf] at h2
  · by_cases hd : env.dialogPath = ""
    · simp [save_file, hf, hd] at h1
    · simp only [save_file, if_neg hf, if_neg hd]
      exact temp_not_in_encodeStep _ _ _ _

theorem c3_temp_removed_witness :
    temp_wav_path ∉ (save_file capturedState env0 []).2.1 :=
  c3_temp_removed capturedState env0 [] (by decide) (by decide)

/-- C4 counterexample: a mid-stream fault (non-empty callback status) does
not stop the session and does not make it fail: after a fault callback
the state is still recording with the stream open, the faulty block is
appended, and a later block is still appended as well. -/
theorem c4_fault_counterexample :
    (audio_callback recState [5] "input overflow").1.is_recording = true ∧
    (audio_callback recState [5] "input overflow").1.streamOpen = true ∧
    (audio_callback recState [5] "input overflow").1.recorded_frames
      = [[5]] ∧
    (audio_callback (audio_callback recState [5] "input overflow").1
        [6] "").1.recorded_frames = [[5], [6]] := by
  decide

/-- C4 amended: on a mid-stream fault the callback logs the status to the
error stream and appends the block as usual; the state is otherwise
unchanged, so recording continues and every block captured before the
fault is preserved. -/
theorem c4_fault_logged_and_appended (st : AppState) (b : SampleBlock)
    (status : String) (h : status ≠ "") :
    audio_callback st b status
      = ({ st with recorded_frames := st.recorded_frames ++ [b] },
         [Event.logStatus status, Event.appendBlock b]) := by
  simp [audio_callback, h]

theorem c4_fault_logged_and_appended_witness :
    audio_callback recState [5] "input overflow"
      = ({ recState with
            recorded_frames := recState.recorded_frames ++ [[5]] },
         [Event.logStatus "input overflow", Event.appendBlock [5]]) :=
  c4_fault_logged_and_appended recState [5] "input overflow" (by decide)

/-- C5: evaluating a failed start from the initial idle state shows the
recording flag cleared and no stream open, but the one-second timer that
was started before the device open attempt is still running, because
reset_ui never stops it. -/
theorem c5_timer_left_running :
    (toggle_recording initState false).1.is_recording = false ∧
    (toggle_recording initState false).1.streamOpen = false ∧
    (toggle_recording initState false).1.timerActive = true := by
  decide

theorem mem_removeTemp_events (fs : Fs) (e : Event) :
    e ∈ (removeTemp fs).2 → e = Event.removeFile temp_wav_path := by
  unfold removeTemp
  by_cases hm : temp_wav_path ∈ fs <;> simp [hm]

theorem encodeStep_no_append (st : AppState) (env : SaveEnv) (dest : String)
    (fs : Fs) (b : SampleBlock) :
    Event.appendBlock b ∉ (encodeStep st env dest fs).2.2 := by
  obtain ⟨dp, wv, ff⟩ := env
  intro hmem
  cases wv <;> cases ff <;>
    · simp only [encodeStep] at hmem
      rcases List.mem_append.mp hmem with h | h
      · simp at h
      · exact absurd (mem_removeTemp_events _ _ h) (by simp)

theorem save_file_no_append (st : AppState) (env : SaveEnv) (fs : Fs)
    (b : SampleBlock) : Event.appendBlock b ∉ (save_file st env fs).2.2 := by
  by_cases hf : st.recorded_frames = []
  · simp [save_file, hf]
  · by_cases hd : env.dialogPath = ""
    · simp [save_file, hf, hd]
    · intro hmem
      simp only [save_file, if_neg hf, if_neg hd] at hmem
      rcases List.mem_append.mp hmem with h | h
      · simp at h
      · exact encodeStep_no_append st env _ fs b h

/-- C6: in every actual stop, stopping the stream is the first action of
the trace and closing it the second, both strictly before the timer stop
and before every save action (buffer read, temporary write, encoder run),
and no block append occurs anywhere in the stop trace: the producer is
stopped before the buffer is read and encoding starts. -/
theorem c6_stop_before_read (st : AppState) (env : SaveEnv) (fs : Fs)
    (h : st.is_recording = true) :
    (stop_recording st env fs).2.2.2
      = Event.streamStop :: Event.streamClose :: Event.timerStop ::
          (save_file { st with streamOpen := false, timerActive := false }
            env fs).2.2 ∧
    (∀ b, Event.appendBlock b ∉ (stop_recording st env fs).2.2.2) := by
  constructor
  · simp [stop_recording, h]
  · intro b
    have h0 := save_file_no_append
      { st with streamOpen := false, timerActive := false } env fs b
    simp [stop_recording, h]
    exact h0

theorem c6_stop_before_read_witness :
    (stop_recording capturedState env0 []).2.2.2
      = Event.streamStop :: Event.streamClose :: Event.timerStop ::
          (save_file
            { capturedState with streamOpen := false, timerActive := false }
            env0 []).2.2 ∧
    Event.appendBlock [9] ∉ (stop_recording capturedState env0 []).2.2.2 :=
  ⟨(c6_stop_before_read capturedState env0 [] (by decide)).1,
   (c6_stop_before_read capturedState env0 [] (by decide)).2 [9]⟩

/-- Witness environment: path without extension chosen, both external
steps succeed. -/
def env1 : SaveEnv := { dialogPath := "rec", wavWrite := .ok, ffmpeg := .ok }

/-- Witness environment: dialog cancelled. -/
def env2 : SaveEnv := { dialogPath := "", wavWrite := .ok, ffmpeg := .ok }

/-- C7: the destination path gets the .mp3 extension appended exactly when
its lower-cased form lacks it, and the encoder is invoked on the
normalized destination with the fixed argument vector: the temporary WAV
file as input, the overwrite flag, the no-video flag, the session sample
rate and channel count, and bitrate 192k. -/
theorem c7_ffmpeg_invocation (p : String) (sr ch : Nat) :
    (lowerEndsWithMp3 p = false → normalizeDest p = p ++ ".mp3") ∧
    (lowerEndsWithMp3 p = true → normalizeDest p = p) ∧
    ffmpegCommand sr ch (normalizeDest p)
      = ["ffmpeg", "-i", temp_wav_path, "-y", "-vn",
         "-ar", toString sr, "-ac", toString ch,
         "-b:a", "192k", normalizeDest p] ∧
    (∀ (st : AppState) (env : SaveEnv) (fs : Fs),
       st.recorded_frames ≠ [] → env.dialogPath = p → p ≠ "" →
       env.wavWrite = WavOutcome.ok → env.ffmpeg = FfmpegOutcome.ok →
       Event.runFfmpeg
           (ffmpegCommand st.samplerate st.channels (normalizeDest p))
         ∈ (save_file st env fs).2.2) := by
  refine ⟨?_, ?_, rfl, ?_⟩
  · intro h
    simp [normalizeDest, h]
  · intro h
    simp [normalizeDest, h]
  · intro st env fs hf hd hp hw hff
    simp [save_file, encodeStep, hf, hd, hp, hw, hff]

theorem c7_ffmpeg_invocation_witness :
    normalizeDest "rec" = "rec" ++ ".mp3" ∧
    ffmpegCommand 44100 1 (normalizeDest "rec")
      = ["ffmpeg", "-i", temp_wav_path, "-y", "-vn",
         "-ar", toString 44100, "-ac", toString 1,
         "-b:a", "192k", normalizeDest "rec"] ∧
    Event.runFfmpeg
        (ffmpegCommand capturedState.samplerate capturedState.channels
          (normalizeDest "rec"))
      ∈ (save_file capturedState env1 []).2.2 :=
  ⟨(c7_ffmpeg_invocation "rec" 44100 1).1 (by decide),
   (c7_ffmpeg_invocation "rec" 44100 1).2.2.1,
   (c7_ffmpeg_invocation "rec" 44100 1).2.2.2 capturedState env1 []
     (by decide) rfl (by decide) rfl rfl⟩

/-- C9: closing the application while recording stops the stream and
closes it before the close event is accepted, the same two stream
shutdown actions in the same order as the normal stop path, and
afterwards no capture handle stays open. -/
theorem c9_close_stops_stream (st : AppState) (env : SaveEnv) (fs : Fs)
    (h : st.is_recording = true) :
    closeEvent st
      = ({ st with streamOpen := false },
         [Event.streamStop, Event.streamClose, Event.acceptClose]) ∧
    (closeEvent st).1.streamOpen = false ∧
    (∃ tl, (stop_recording st env fs).2.2.2
        = Event.streamStop :: Event.streamClose :: tl) := by
  refine ⟨by simp [closeEvent, h], by simp [closeEvent, h], ?_⟩
  refine ⟨Event.timerStop ::
    (save_file { st with streamOpen := false, timerActive := false }
      env fs).2.2, ?_⟩
  simp [stop_recording, h]

theorem c9_close_stops_stream_witness :
    closeEvent capturedState
      = ({ capturedState with streamOpen := false },
         [Event.streamStop, Event.streamClose, Event.acceptClose]) ∧
    (closeEvent capturedState).1.streamOpen = false :=
  ⟨(c9_close_stops_stream capturedState env0 [] (by decide)).1,
   (c9_close_stops_stream capturedState env0 [] (by decide)).2.1⟩

/-- C10: when stop runs with captured audio but the save dialog is
cancelled (empty path), the trace shows no temporary write, no encoder
run, no file removal and no message box, the file system is unchanged, no
result is produced, and the session still resets to the idle UI state, so
the captured audio of that session is silently discarded. -/
theorem c10_cancel_silent_reset (st : AppState) (env : SaveEnv) (fs : Fs)
    (hrec : st.is_recording = true) (hf : st.recorded_frames ≠ [])
    (hd : env.dialogPath = "") :
    (stop_recording st env fs).2.1 = none ∧
    (stop_recording st env fs).2.2.1 = fs ∧
    (stop_recording st env fs).1.is_recording = false ∧
    (stop_recording st env fs).2.2.2
      = [Event.streamStop, Event.streamClose, Event.timerStop,
         Event.bufferRead (concatenate st.recorded_frames),
         Event.openDialog] := by
  refine ⟨?_, ?_, ?_, ?_⟩ <;>
    simp [stop_recording, hrec, save_file, hf, hd, reset_ui]

theorem c10_cancel_silent_reset_witness :
    (stop_recording capturedState env2 []).2.1 = none ∧
    (stop_recording capturedState env2 []).2.2.1 = [] ∧
    (stop_recording capturedState env2 []).1.is_recording = false ∧
    (stop_recording capturedState env2 []).2.2.2
      = [Event.streamStop, Event.streamClose, Event.timerStop,
         Event.bufferRead (concatenate capturedState.recorded_frames),
         Event.openDialog] :=
  c10_cancel_silent_reset capturedState env2 [] (by decide) (by decide) rfl

end VoiceRecorder
